import Mathlib

/-!
Shallow embedding of the actio-solana-adapter core logic:
the action-code service client (`src/adapter/services/action-codes.ts`),
the session store (`src/adapter/services/session.ts`),
the modal controller (`src/adapter/services/modal.ts`),
the error taxonomy (`src/adapter/errors/index.ts`), and the
wallet adapter's `signTransaction` orchestration (`adapter.ts`).

Modelling conventions:
* JavaScript strings are Lean `String`s; the byte arrays handled by the
  base64 codec are `List Nat` with every element `< 256` (a `Uint8Array`),
  and the base64 text produced by `btoa` is a `List Nat` of character codes.
* Thrown JavaScript errors are modelled with `Except`; a raw JS `Error`
  value is a `JsError` carrying its `name` and `message`.
* Network and DOM collaborators (the remote action-codes client, the
  `PublicKey` constructor, transaction deserialization, the SDK memo
  validator) are external; each call outcome is passed in as an explicit
  environment value, and the functions under verification are the exact
  control flow the TypeScript performs on those outcomes.
* `localStorage` is modelled by threading an `Option StoredSession`
  through each operation and returning the updated store.
-/

namespace ActioAdapter

/-- A raw JavaScript `Error` value: its `name` and `message`. -/
structure JsError where
  name : String
  message : String
deriving DecidableEq

/-- Does the character list `haystack` start with `needle`? -/
def listStartsWith : List Char → List Char → Bool
  | _, [] => true
  | [], _ :: _ => false
  | a :: as, b :: bs => a == b && listStartsWith as bs

/-- Is `needle` a contiguous sublist of `haystack`? -/
def listContains : List Char → List Char → Bool
  | [], needle => needle.isEmpty
  | a :: as, needle => listStartsWith (a :: as) needle || listContains as needle

/-- `haystack.includes(needle)` on JavaScript strings. -/
def strIncludes (haystack needle : String) : Bool :=
  listContains haystack.data needle.data

/-- `s.toLowerCase()`: character-wise lowering (the rule keywords compared
against are all ASCII). -/
def strToLower (s : String) : String :=
  ⟨s.data.map Char.toLower⟩

/-- ASCII whitespace, as removed by JavaScript's `trim()`. -/
def isJsWhitespace (c : Char) : Bool :=
  c == ' ' || c == '\t' || c == '\n' || c == '\r'

/-- `s.trim()`: strip leading and trailing whitespace. -/
def strTrim (s : String) : String :=
  ⟨((s.data.dropWhile isJsWhitespace).reverse.dropWhile isJsWhitespace).reverse⟩

/-- `NetworkError` from `src/adapter/errors/index.ts`: an `ActioError`
with `code = "NETWORK_ERROR"`, a `networkErrorCode` sub-code (the
constructor defaults it to `"NETWORK_ERROR"`), and the original error. -/
structure NetworkError where
  message : String
  originalError : Option String
  networkErrorCode : String
deriving DecidableEq

/-- `new NetworkError(message, originalError)` with the constructor's
default third argument `networkErrorCode = "NETWORK_ERROR"`. -/
def mkNetworkError (message : String) (originalError : Option String) : NetworkError :=
  ⟨message, originalError, "NETWORK_ERROR"⟩

/-- `NetworkError.isCorsError()`. -/
def NetworkError.isCorsError (e : NetworkError) : Bool :=
  e.networkErrorCode == "CORS_ERROR"

/-- `NetworkError.isServerError()`. -/
def NetworkError.isServerError (e : NetworkError) : Bool :=
  e.networkErrorCode == "SERVER_ERROR"

/-- `NetworkError.isConnectionError()`. -/
def NetworkError.isConnectionError (e : NetworkError) : Bool :=
  e.networkErrorCode == "CONNECTION_ERROR" || e.networkErrorCode == "TIMEOUT_ERROR"

/-- CORS rule of `enhanceNetworkError` (first `if`). -/
def corsRule (m : String) : Bool :=
  strIncludes m "cors" || strIncludes m "access-control-allow-origin" ||
    strIncludes m "preflight" || (strIncludes m "fetch" && strIncludes m "blocked")

/-- Network/connection rule of `enhanceNetworkError`. -/
def connectionRule (m : String) : Bool :=
  strIncludes m "failed to fetch" || strIncludes m "network error" ||
    strIncludes m "fetch error"

/-- Timeout rule of `enhanceNetworkError`. -/
def timeoutRule (m : String) : Bool :=
  strIncludes m "timeout" || strIncludes m "timed out"

/-- HTTP 400 rule of `enhanceNetworkError`. -/
def badRequestRule (m : String) : Bool :=
  strIncludes m "400" || strIncludes m "bad request"

/-- HTTP 401 rule of `enhanceNetworkError`. -/
def unauthorizedRule (m : String) : Bool :=
  strIncludes m "401" || strIncludes m "unauthorized"

/-- HTTP 404 rule of `enhanceNetworkError`. -/
def notFoundRule (m : String) : Bool :=
  strIncludes m "404" || strIncludes m "not found"

/-- HTTP 5xx / service-unavailable rule of `enhanceNetworkError`. -/
def serverRule (m : String) : Bool :=
  strIncludes m "500" || strIncludes m "502" || strIncludes m "503" ||
    strIncludes m "504" || strIncludes m "server error" ||
    strIncludes m "internal server error" || strIncludes m "service unavailable"

/-- Message of the CORS classification. -/
def corsText : String :=
  "Unable to connect to Actio services due to browser security restrictions. This usually happens when the website hasn't been properly configured to work with Actio."

/-- Message of the network/connection classification. -/
def connectionText : String :=
  "Unable to connect to Actio services. Please check your internet connection and try again."

/-- Message of the timeout classification. -/
def timeoutText : String :=
  "Request timed out. The Actio service might be temporarily unavailable. Please try again."

/-- Message of the HTTP 400 classification. -/
def badRequestText : String :=
  "Invalid request. Please check your action code and try again."

/-- Message of the HTTP 401 classification. -/
def unauthorizedText : String :=
  "Unauthorized access. Your action code may have expired or be invalid."

/-- Message of the HTTP 404 classification. -/
def notFoundText : String :=
  "Action not found. Please check your action code and try again."

/-- Message of the HTTP 5xx classification. -/
def serverText : String :=
  "Actio services are temporarily unavailable. Please try again in a few moments."

/-- Message of the generic fall-through classification (textually identical
to `connectionText` in the source). -/
def genericText : String :=
  "Unable to connect to Actio services. Please check your internet connection and try again."

/-- `ActionCodesService.enhanceNetworkError` from
`src/adapter/services/action-codes.ts` lines 125-207: lower-cases the
error message and tests the ordered rule set, returning a `NetworkError`
built by `new NetworkError(text, error)` in every branch. -/
def enhanceNetworkError (error : JsError) : NetworkError :=
  let errorMessage := strToLower error.message
  if corsRule errorMessage then mkNetworkError corsText (some error.message)
  else if connectionRule errorMessage then mkNetworkError connectionText (some error.message)
  else if timeoutRule errorMessage then mkNetworkError timeoutText (some error.message)
  else if badRequestRule errorMessage then mkNetworkError badRequestText (some error.message)
  else if unauthorizedRule errorMessage then mkNetworkError unauthorizedText (some error.message)
  else if notFoundRule errorMessage then mkNetworkError notFoundText (some error.message)
  else if serverRule errorMessage then mkNetworkError serverText (some error.message)
  else mkNetworkError genericText (some error.message)

/-! ## Action service client (`src/adapter/services/action-codes.ts`) -/

/-- An `Action` resolved from an action code. `intendedFor` is the recipient
wallet address; `none` models JS `undefined`/`null` (an empty string is also
falsy in the source's `!action.intendedFor` test, handled by `optFalsy`). -/
structure Action where
  intendedFor : Option String
deriving DecidableEq

/-- JavaScript falsiness of an optional string (`undefined`, `null`, `""`). -/
def optFalsy : Option String → Bool
  | none => true
  | some s => s == ""

/-- Outcome of the external `ActionCodesClient.getAction(code)` call:
it resolves with an action, resolves with a nullish value, or rejects. -/
inductive ClientGetAction where
  | resolved (action : Option Action)
  | rejected (e : JsError)
deriving DecidableEq

/-- Errors thrown by `ActionCodesService.getAction`. -/
inductive GetActionError where
  | invalidActionCode (actionCode : String) (reason : String)
  | network (e : NetworkError)
deriving DecidableEq

/-- The `message` of a `GetActionError` as a JS `Error` message
(`InvalidActionCodeError` prefixes the reason in its constructor). -/
def GetActionError.message : GetActionError → String
  | .invalidActionCode _ reason => "Invalid action code: " ++ reason
  | .network e => e.message

/-- Outcome of the external `new PublicKey(s)` constructor: `ok` when `s`
parses as a valid on-chain address, otherwise the thrown error's message. -/
abbrev PkParse := String → Except String Unit

/-- `ActionCodesService.getAction` from `action-codes.ts` lines 26-62:
rejects empty/whitespace codes, missing actions, missing or unparsable
`intendedFor` with `InvalidActionCodeError`; any other failure of the
client call is passed through `enhanceNetworkError`. -/
def getAction (pkParse : PkParse) (client : ClientGetAction) (code : String) :
    Except GetActionError Action :=
  if strTrim code == "" then .error (.invalidActionCode code "Code cannot be empty")
  else
    match client with
    | .rejected e => .error (.network (enhanceNetworkError e))
    | .resolved none => .error (.invalidActionCode code "Action not found")
    | .resolved (some action) =>
      if optFalsy action.intendedFor then
        .error (.invalidActionCode code "Action missing intended recipient")
      else
        match pkParse (action.intendedFor.getD "") with
        | .error _ => .error (.invalidActionCode code "Invalid recipient public key")
        | .ok _ => .ok action

/-- The task object resolved by the external `client.submitAndWait` call:
its `status` and the optional `result.txSignature` / `result.signedTxBase64`
payload fields. -/
structure RawTask where
  status : String
  txSignature : Option String
  signedTxBase64 : Option String
deriving DecidableEq

/-- Outcome of the external `client.submitAndWait(code, payload, timeoutMs)`
call: resolves with a task or rejects with an error (whose `name` is
`"TaskTimeoutError"`, `"TaskNotFoundError"`, or anything else). -/
inductive ClientSubmit where
  | resolved (task : RawTask)
  | rejected (e : JsError)
deriving DecidableEq

/-- JavaScript `a || b` on optional strings (an empty string is falsy). -/
def jsOrString : Option String → Option String → Option String
  | some s, b => if s == "" then b else some s
  | none, b => b

/-- What `submitAction` returns on success: `{ status, result }` where
`result` is `task.result?.txSignature || task.result?.signedTxBase64 || null`
(`none` models `null`, which also absorbs empty strings by JS falsiness). -/
structure SubmitOutcome where
  status : String
  result : Option String
deriving DecidableEq

/-- The original error stored inside an `ActionProcessingError`: either the
raw rejection or the classified `NetworkError`. -/
inductive OriginalError where
  | raw (e : JsError)
  | network (e : NetworkError)
deriving DecidableEq

/-- `ActionProcessingError` from `src/adapter/errors/index.ts`:
`code = "PROCESSING_ERROR"` with a distinguishing `phase`. -/
structure ActionProcessingError where
  message : String
  phase : String
  originalError : OriginalError
deriving DecidableEq

/-- `ActionCodesService.submitAction` from `action-codes.ts` lines 67-103:
returns `{status, result}` on success; a `TaskTimeoutError` rejection
becomes a `TASK_TIMEOUT` processing error, a `TaskNotFoundError` rejection
becomes `TASK_NOT_FOUND`, and every other rejection is classified by
`enhanceNetworkError` and wrapped as `SUBMISSION_FAILED`. -/
def submitAction (client : ClientSubmit) : Except ActionProcessingError SubmitOutcome :=
  match client with
  | .resolved task =>
    .ok ⟨task.status, jsOrString task.txSignature (jsOrString task.signedTxBase64 none)⟩
  | .rejected e =>
    if e.name == "TaskTimeoutError" then
      .error ⟨"Task did not complete in time", "TASK_TIMEOUT", .raw e⟩
    else if e.name == "TaskNotFoundError" then
      .error ⟨"Task not found", "TASK_NOT_FOUND", .raw e⟩
    else
      .error ⟨"Failed to submit action", "SUBMISSION_FAILED", .network (enhanceNetworkError e)⟩

/-! ## Session store (`src/adapter/services/session.ts`)

The persisted record under the `"actio_wallet_session"` storage key.
`expiresAt` is an ISO timestamp in the source; dates are modelled as
epoch milliseconds (`Nat`), which `new Date(...)` comparison and
`Date.now() + ms` respect. -/

/-- `ActioSession`: the persisted session record. -/
structure StoredSession where
  signedTxBase64 : String
  expiresAt : Nat
  origin : String
deriving DecidableEq

/-- `SessionValidationResult` from `session.ts`. -/
structure SessionValidationResult where
  isValid : Bool
  publicKey : Option String
  error : Option String
deriving DecidableEq

/-- `24 * 60 * 60 * 1000`: the session duration in milliseconds. -/
def sessionDurationMs : Nat := 24 * 60 * 60 * 1000

/-- Outcomes of the external calls `validateSession` makes on the stored
transaction bytes: deserialization (`Transaction.from` falling back to
`VersionedTransaction.deserialize`), memo extraction (`getActioMemo`,
carrying `parsed.int` when found), the SDK validator
(`validateActionCodesMemoTransaction`, which can also throw), and the
`new PublicKey(actioMemo.parsed.int)` constructor. -/
structure SdkEnv where
  deserializeOk : Bool
  memo : Option String
  sdkValidate : Except String Bool
  pkParse : PkParse

/-- `SessionService.validateSession` from `session.ts` lines 108-174: the
ordered pipeline (exists, not expired, origin match, deserializes, memo
present, SDK-valid, public key recoverable). Returns the validation result
together with the stored session after the call (the source's
`clearSession()` side effect deletes it on some failure paths). -/
def validateSession (env : SdkEnv) (now : Nat) (origin : String)
    (store : Option StoredSession) : SessionValidationResult × Option StoredSession :=
  match store with
  | none => (⟨false, none, some "No session found"⟩, none)
  | some session =>
    if session.expiresAt < now then
      (⟨false, none, some "Session expired"⟩, none)
    else if session.origin ≠ origin then
      (⟨false, none, some "Session origin mismatch"⟩, none)
    else if ¬env.deserializeOk then
      (⟨false, none, some "Invalid transaction format"⟩, some session)
    else
      match env.memo with
      | none => (⟨false, none, some "No memo found"⟩, some session)
      | some int =>
        match env.sdkValidate with
        | .error msg =>
          (⟨false, none, some ("Session validation failed: " ++ msg)⟩, none)
        | .ok false => (⟨false, none, some "Invalid transaction"⟩, none)
        | .ok true =>
          match env.pkParse int with
          | .error msg =>
            (⟨false, none, some ("Session validation failed: " ++ msg)⟩, none)
          | .ok _ => (⟨true, some int, none⟩, some session)

/-- `ActioConnectionError` (`code = "CONNECTION_ERROR"`) as thrown by
`createSession`. -/
structure ConnectionError where
  message : String
deriving DecidableEq

/-- `SessionService.createSession` from `session.ts` lines 48-103: resolves
the action, builds the zero-value auth transaction, submits it with
`signOnly: true`, and persists the session record only when the submission
reached `"completed"` with a payload; every failure is wrapped into an
`ActioConnectionError` prefixed `"Failed to create session: "` by the
surrounding catch, leaving the store untouched. -/
def createSession (pkParse : PkParse) (clientAction : ClientGetAction)
    (clientSubmit : ClientSubmit) (now : Nat) (code origin : String)
    (store : Option StoredSession) :
    Except ConnectionError (StoredSession × String) × Option StoredSession :=
  match getAction pkParse clientAction code with
  | .error e =>
    (.error ⟨"Failed to create session: " ++ e.message⟩, store)
  | .ok action =>
    if optFalsy action.intendedFor then
      (.error ⟨"Failed to create session: Action missing intended recipient"⟩, store)
    else
      match pkParse (action.intendedFor.getD "") with
      | .error msg => (.error ⟨"Failed to create session: " ++ msg⟩, store)
      | .ok _ =>
        match submitAction clientSubmit with
        | .error e => (.error ⟨"Failed to create session: " ++ e.message⟩, store)
        | .ok out =>
          if out.status ≠ "completed" ∨ out.result = none then
            (.error ⟨"Failed to create session: Failed to create session"⟩, store)
          else
            (.ok (⟨out.result.getD "", now + sessionDurationMs, origin⟩,
                  action.intendedFor.getD ""),
             some ⟨out.result.getD "", now + sessionDurationMs, origin⟩)

/-! ## Base64 codec (`session.ts` lines 196-215 and `adapter.ts`)

`arrayBufferToBase64` turns a `Uint8Array` into a binary string with
`String.fromCharCode` and feeds it to the browser's `btoa`;
`base64ToArrayBuffer` applies `atob` and reads bytes back with
`charCodeAt`. Strings are modelled as lists of character codes, so
`fromCharCode`/`charCodeAt` are identities and the codec is `btoa`/`atob`
on byte lists. `btoa`/`atob` are RFC 4648 base64 over latin-1 strings. -/

/-- The base64 alphabet as character codes: index `n < 64` to the code of
the character at that index (`A-Z`, `a-z`, `0-9`, `+`, `/`). -/
def b64CharCode (n : Nat) : Nat :=
  if n < 26 then 65 + n
  else if n < 52 then 97 + (n - 26)
  else if n < 62 then 48 + (n - 52)
  else if n = 62 then 43
  else 47

/-- Inverse of the base64 alphabet: character code to sextet value. -/
def b64SextetOf (c : Nat) : Nat :=
  if 65 ≤ c ∧ c ≤ 90 then c - 65
  else if 97 ≤ c ∧ c ≤ 122 then 26 + (c - 97)
  else if 48 ≤ c ∧ c ≤ 57 then 52 + (c - 48)
  else if c = 43 then 62
  else if c = 47 then 63
  else 0

/-- The browser's `btoa` on a binary string (bytes as character codes):
standard base64 with `=` (code 61) padding. -/
def btoa : List Nat → List Nat
  | b0 :: b1 :: b2 :: rest =>
    b64CharCode (b0 / 4) :: b64CharCode (b0 % 4 * 16 + b1 / 16) ::
      b64CharCode (b1 % 16 * 4 + b2 / 64) :: b64CharCode (b2 % 64) :: btoa rest
  | [b0, b1] =>
    [b64CharCode (b0 / 4), b64CharCode (b0 % 4 * 16 + b1 / 16),
     b64CharCode (b1 % 16 * 4), 61]
  | [b0] => [b64CharCode (b0 / 4), b64CharCode (b0 % 4 * 16), 61, 61]
  | [] => []

/-- The browser's `atob` on base64 text (character codes), producing the
binary string's character codes; `=` padding (code 61) shortens the last
quantum. -/
def atob : List Nat → List Nat
  | c0 :: c1 :: c2 :: c3 :: rest =>
    if c2 = 61 then
      [b64SextetOf c0 * 4 + b64SextetOf c1 / 16]
    else if c3 = 61 then
      [b64SextetOf c0 * 4 + b64SextetOf c1 / 16,
       b64SextetOf c1 % 16 * 16 + b64SextetOf c2 / 4]
    else
      (b64SextetOf c0 * 4 + b64SextetOf c1 / 16) ::
        (b64SextetOf c1 % 16 * 16 + b64SextetOf c2 / 4) ::
        (b64SextetOf c2 % 4 * 64 + b64SextetOf c3) :: atob rest
  | _ => []

/-- `SessionService.arrayBufferToBase64`: bytes to binary string
(`String.fromCharCode`, an identity on codes) then `btoa`. -/
def arrayBufferToBase64 (buffer : List Nat) : List Nat := btoa buffer

/-- `SessionService.base64ToArrayBuffer`: `atob` then `charCodeAt` per
position (an identity on codes). -/
def base64ToArrayBuffer (base64 : List Nat) : List Nat := atob base64

/-! ## Modal controller (`src/adapter/services/modal.ts`)

`ModalService` holds a mounted modal element (screen, visibility) and a
`currentPromise` slot. Each promise ever created by `show()` gets a fresh
identifier; its settlement (pending / resolved / rejected) is recorded in
an association list. DOM events (`code-submit`, `modal-retry`,
`modal-close`) and the display methods are modelled as a step function. -/

/-- The modal element's screen. -/
inductive Screen where
  | input
  | loading
  | error
  | success
deriving DecidableEq

/-- Settlement state of one promise returned by `show()`. -/
inductive Settlement where
  | pending
  | resolved (code : String)
  | rejected (reason : String)
deriving DecidableEq

/-- The modal service state: the element's UI state, the `currentPromise`
slot (by promise id), the settlement ledger, and the next fresh id. -/
structure ModalServiceState where
  visible : Bool
  screen : Screen
  currentPromise : Option Nat
  promises : List (Nat × Settlement)
  nextId : Nat
deriving DecidableEq

/-- The state after `init()`: modal mounted, hidden, on the input screen,
no pending promise. -/
def initModalState : ModalServiceState := ⟨false, .input, none, [], 0⟩

/-- Settlement recorded for promise `p`, if `p` was ever created. -/
def settlementOf : List (Nat × Settlement) → Nat → Option Settlement
  | [], _ => none
  | (q, st) :: rest, p => if q = p then some st else settlementOf rest p

/-- Record a settlement for promise `p` (resolving/rejecting an existing
promise; ids are unique so at most one entry matches). -/
def settlePromise : List (Nat × Settlement) → Nat → Settlement → List (Nat × Settlement)
  | [], _, _ => []
  | (q, st) :: rest, p, s =>
    if q = p then (q, s) :: settlePromise rest p s
    else (q, st) :: settlePromise rest p s

/-- `ModalService.show` from `modal.ts` lines 98-117: when no promise is
pending and the screen is not `error`, reset the UI and show the input
screen; when no promise is pending on the `error` screen, only restore
visibility; then unconditionally install a fresh promise in
`currentPromise` and return it. -/
def showModal (s : ModalServiceState) : ModalServiceState × Nat :=
  let s1 :=
    if s.currentPromise = none ∧ s.screen ≠ Screen.error then
      { s with visible := true, screen := Screen.input }
    else if s.currentPromise = none ∧ s.screen = Screen.error then
      { s with visible := true }
    else s
  ({ s1 with
      currentPromise := some s1.nextId,
      promises := s1.promises ++ [(s1.nextId, Settlement.pending)],
      nextId := s1.nextId + 1 },
   s1.nextId)

/-- Events driving the modal service: the three DOM events of
`setupEventListeners` plus the display methods and `show()` itself. -/
inductive ModalEvent where
  | showCall
  | codeSubmit (code : String)
  | retry
  | close (reason : String)
  | showLoading
  | showError
  | showSuccess
deriving DecidableEq

/-- One step of the modal service (`modal.ts`): `code-submit` resolves the
pending promise when a non-empty code was entered; `modal-retry` only
switches the screen back to `input`; `modal-close` rejects the pending
promise with `"Modal closed: <reason>"`, hides and resets; the display
methods force visibility and set their screen. -/
def modalStep (s : ModalServiceState) : ModalEvent → ModalServiceState
  | .showCall => (showModal s).1
  | .codeSubmit code =>
    match s.currentPromise with
    | some p =>
      if code ≠ "" then
        { s with
            promises := settlePromise s.promises p (Settlement.resolved code),
            currentPromise := none }
      else s
    | none => s
  | .retry => { s with screen := Screen.input }
  | .close reason =>
    let s1 :=
      match s.currentPromise with
      | some p =>
        { s with
            promises := settlePromise s.promises p
              (Settlement.rejected ("Modal closed: " ++ reason)),
            currentPromise := none }
      | none => s
    { s1 with visible := false, screen := Screen.input }
  | .showLoading => { s with visible := true, screen := Screen.loading }
  | .showError => { s with visible := true, screen := Screen.error }
  | .showSuccess => { s with visible := true, screen := Screen.success }

/-- Run a sequence of modal events. -/
def modalRun (s : ModalServiceState) : List ModalEvent → ModalServiceState
  | [] => s
  | e :: es => modalRun (modalStep s e) es

/-! ## Wallet adapter `signTransaction` (`adapter.ts`, latest revision)

The orchestration: open the modal for a code, resolve the action,
re-validate the session and cross-check its bound key against the action's
`intendedFor`, then submit the serialized transaction with
`signOnly: true` and parse the signed payload. -/

/-- Errors escaping `signTransaction` (the outer catch rethrows the
original): a plain `new Error(message)`, the `Modal closed: ...` rejection
from the modal promise, or the typed errors propagated from the services. -/
inductive AdapterError where
  | jsError (message : String)
  | modalClosed (reason : String)
  | fromGetAction (e : GetActionError)
  | fromSubmit (e : ActionProcessingError)
deriving DecidableEq

/-- The `code` field carried by an escaping error: plain `Error` values
have none; `ActioError` subclasses carry their class code. -/
def AdapterError.errorCode : AdapterError → Option String
  | .jsError _ => none
  | .modalClosed _ => none
  | .fromGetAction (.invalidActionCode _ _) => some "INVALID_ACTION_CODE"
  | .fromGetAction (.network _) => some "NETWORK_ERROR"
  | .fromSubmit _ => some "PROCESSING_ERROR"

/-- Message thrown when the re-validated session is invalid or has no
bound key. -/
def sessionInvalidMsg : String :=
  "Session is not valid. Please reconnect your wallet."

/-- Message thrown when the session's bound key differs from the action's
`intendedFor` (the source text contains an apostrophe). -/
def sessionMismatchMsg : String :=
  "Session wallet does not match action" ++ (Char.ofNat 39).toString ++ "s intended recipient."

/-- Environment of one `signTransaction` run: the outcome of every
external interaction it performs, in program order. -/
structure SignEnv where
  /-- `this._actio.openModal(...)`: the user's code, or the promise
  rejection reason (e.g. `Modal closed: escape`). -/
  modalCode : Except String String
  /-- `ActionCodesClient.getAction` outcome inside `getAction(code)`. -/
  clientAction : ClientGetAction
  /-- `new PublicKey` outcomes. -/
  pkParse : PkParse
  /-- External outcomes seen by `validateSession`. -/
  valEnv : SdkEnv
  /-- `Date.now()` during validation. -/
  now : Nat
  /-- `window.location.hostname`. -/
  origin : String
  /-- The stored session record. -/
  store : Option StoredSession
  /-- `client.submitAndWait` outcome inside `submitAction`. -/
  clientSubmit : ClientSubmit
  /-- Whether `transaction.constructor.from(signedTxBuffer)` succeeds. -/
  parseSignedOk : Bool

/-- Decidable equality for `Except` values. -/
instance {ε α : Type} [DecidableEq ε] [DecidableEq α] : DecidableEq (Except ε α) := fun x y =>
  match x, y with
  | .ok a, .ok b =>
    if h : a = b then .isTrue (by rw [h]) else .isFalse (by intro hh; cases hh; exact h rfl)
  | .error a, .error b =>
    if h : a = b then .isTrue (by rw [h]) else .isFalse (by intro hh; cases hh; exact h rfl)
  | .ok _, .error _ => .isFalse (by intro hh; cases hh)
  | .error _, .ok _ => .isFalse (by intro hh; cases hh)

/-- Result of a `signTransaction` run: the value returned or error thrown,
plus whether the signing submission (`submitAction`) was ever invoked. -/
structure SignRun where
  result : Except AdapterError String
  submitted : Bool
deriving DecidableEq

/-- `ActioWalletAdapter.signTransaction` from `adapter.ts` (latest
revision; the cross-check is its lines 417-431): collect a code, resolve
the action, check `intendedFor`, re-validate the session, assert the
session's bound key equals the action's `intendedFor`, and only then
submit the transaction for signing and parse the result. The outer catch
resets the modal, shows the error, and rethrows the original error. -/
def signTransactionRun (env : SignEnv) : SignRun :=
  match env.modalCode with
  | .error reason => ⟨.error (.modalClosed reason), false⟩
  | .ok code =>
    match getAction env.pkParse env.clientAction code with
    | .error e => ⟨.error (.fromGetAction e), false⟩
    | .ok action =>
      if optFalsy action.intendedFor then
        ⟨.error (.jsError "Action missing intended recipient"), false⟩
      else
        match env.pkParse (action.intendedFor.getD "") with
        | .error msg => ⟨.error (.jsError msg), false⟩
        | .ok _ =>
          let validation := (validateSession env.valEnv env.now env.origin env.store).1
          if validation.isValid = false ∨ validation.publicKey = none then
            ⟨.error (.jsError sessionInvalidMsg), false⟩
          else if validation.publicKey ≠ action.intendedFor then
            ⟨.error (.jsError sessionMismatchMsg), false⟩
          else
            match submitAction env.clientSubmit with
            | .error e => ⟨.error (.fromSubmit e), true⟩
            | .ok out =>
              if out.status = "failed" then ⟨.error (.jsError "Action failed"), true⟩
              else if out.status = "cancelled" then
                ⟨.error (.jsError "Action was cancelled"), true⟩
              else
                match out.result with
                | none => ⟨.error (.jsError "Did not receive signed transaction"), true⟩
                | some signedTxBase64 =>
                  if env.parseSignedOk then ⟨.ok signedTxBase64, true⟩
                  else ⟨.error (.jsError "Failed to parse signed transaction"), true⟩

/-! ## Helper lemmas -/

/-- Decoding inverts the base64 alphabet on sextets. -/
theorem b64SextetOf_b64CharCode {n : Nat} (h : n < 64) :
    b64SextetOf (b64CharCode n) = n := by
  interval_cases n <;> rfl

/-- No sextet encodes to the padding character `=` (code 61). -/
theorem b64CharCode_ne_61 {n : Nat} (h : n < 64) : b64CharCode n ≠ 61 := by
  interval_cases n <;> decide

/-- `atob` inverts `btoa` on byte lists (auxiliary strong induction). -/
theorem atob_btoa_aux :
    ∀ (n : Nat) (b : List Nat), b.length ≤ n → (∀ x ∈ b, x < 256) →
      atob (btoa b) = b := by
  intro n
  induction n with
  | zero =>
    intro b hlen _
    cases b with
    | nil => rfl
    | cons a t => simp at hlen
  | succ n ih =>
    intro b hlen h256
    match b with
    | [] => rfl
    | [b0] =>
      have hb0 : b0 < 256 := h256 b0 (by simp)
      have h1 : b0 / 4 < 64 := by omega
      have h2 : b0 % 4 * 16 < 64 := by omega
      simp only [btoa, atob, reduceIte]
      rw [b64SextetOf_b64CharCode h1, b64SextetOf_b64CharCode h2]
      simp only [List.cons.injEq, and_true]
      omega
    | [b0, b1] =>
      have hb0 : b0 < 256 := h256 b0 (by simp)
      have hb1 : b1 < 256 := h256 b1 (by simp)
      have h1 : b0 / 4 < 64 := by omega
      have h2 : b0 % 4 * 16 + b1 / 16 < 64 := by omega
      have h3 : b1 % 16 * 4 < 64 := by omega
      simp only [btoa, atob]
      rw [if_neg (b64CharCode_ne_61 h3), if_pos trivial]
      rw [b64SextetOf_b64CharCode h1, b64SextetOf_b64CharCode h2,
        b64SextetOf_b64CharCode h3]
      simp only [List.cons.injEq, and_true]
      omega
    | b0 :: b1 :: b2 :: rest =>
      have hb0 : b0 < 256 := h256 b0 (by simp)
      have hb1 : b1 < 256 := h256 b1 (by simp)
      have hb2 : b2 < 256 := h256 b2 (by simp)
      have h1 : b0 / 4 < 64 := by omega
      have h2 : b0 % 4 * 16 + b1 / 16 < 64 := by omega
      have h3 : b1 % 16 * 4 + b2 / 64 < 64 := by omega
      have h4 : b2 % 64 < 64 := by omega
      have hlen' : rest.length ≤ n := by
        simp only [List.length_cons] at hlen
        omega
      have h256' : ∀ x ∈ rest, x < 256 := fun x hx => h256 x (by simp [hx])
      simp only [btoa, atob]
      rw [if_neg (b64CharCode_ne_61 h3), if_neg (b64CharCode_ne_61 h4)]
      rw [b64SextetOf_b64CharCode h1, b64SextetOf_b64CharCode h2,
        b64SextetOf_b64CharCode h3, b64SextetOf_b64CharCode h4]
      rw [ih rest hlen' h256']
      simp only [List.cons.injEq, and_true]
      refine ⟨by omega, by omega, by omega⟩

/-- C10: the session store's base64 codec round-trips: for every byte
array `b`, `base64ToArrayBuffer (arrayBufferToBase64 b)` returns a byte
array equal to `b`, so a serialized transaction persisted by
`createSession` is recovered byte-for-byte by `validateSession`. -/
theorem base64_codec_roundtrip (b : List Nat) (h : ∀ x ∈ b, x < 256) :
    base64ToArrayBuffer (arrayBufferToBase64 b) = b :=
  atob_btoa_aux b.length b le_rfl h

/-- Witness for C10 at the concrete byte array `[0, 1, 61, 127, 128, 255, 16]`. -/
theorem base64_codec_roundtrip_witness :
    base64ToArrayBuffer (arrayBufferToBase64 [0, 1, 61, 127, 128, 255, 16]) =
      [0, 1, 61, 127, 128, 255, 16] :=
  base64_codec_roundtrip [0, 1, 61, 127, 128, 255, 16] (by decide)

/-- C5: the network-error classifier is total: every `Error` value maps to
exactly one `NetworkError` (its message is one of the eight rule texts,
determined by the first matching rule), it falls through to the generic
"check your connection" classification when no rule matches, and it never
throws (it is a Lean function into `NetworkError`). -/
theorem enhanceNetworkError_total (e : JsError) :
    (enhanceNetworkError e).message ∈
        [corsText, connectionText, timeoutText, badRequestText,
         unauthorizedText, notFoundText, serverText, genericText] ∧
      (corsRule (strToLower e.message) = false →
       connectionRule (strToLower e.message) = false →
       timeoutRule (strToLower e.message) = false →
       badRequestRule (strToLower e.message) = false →
       unauthorizedRule (strToLower e.message) = false →
       notFoundRule (strToLower e.message) = false →
       serverRule (strToLower e.message) = false →
       enhanceNetworkError e = mkNetworkError genericText (some e.message)) := by
  refine ⟨?_, ?_⟩ <;> simp only [enhanceNetworkError] <;> intros <;>
    split_ifs <;> simp_all [mkNetworkError]

/-- Witness for C5: the message `"zzz"` matches no rule and is classified
as the generic connection failure. -/
theorem enhanceNetworkError_total_witness :
    enhanceNetworkError ⟨"Error", "zzz"⟩ = mkNetworkError genericText (some "zzz") :=
  (enhanceNetworkError_total ⟨"Error", "zzz"⟩).2 (by decide) (by decide) (by decide)
    (by decide) (by decide) (by decide) (by decide)

/-- C9: every `NetworkError` produced by the classifier carries the
constructor-default sub-code `"NETWORK_ERROR"`, whichever rule matched, so
`isCorsError()` and `isServerError()` are false on every classified
error. -/
theorem enhanceNetworkError_code_uniform (e : JsError) :
    (enhanceNetworkError e).networkErrorCode = "NETWORK_ERROR" ∧
      (enhanceNetworkError e).isCorsError = false ∧
      (enhanceNetworkError e).isServerError = false := by
  simp only [enhanceNetworkError]
  split_ifs <;>
    simp [mkNetworkError, NetworkError.isCorsError, NetworkError.isServerError]

/-- Executable success test for `Except`. -/
def exceptIsOk {ε α : Type} : Except ε α → Bool
  | .ok _ => true
  | .error _ => false

/-- C4: `getAction(code)` fails with `InvalidActionCodeError` exactly when
the code is empty/whitespace-only, the client returns no action, the
action's `intendedFor` is missing (JS-falsy), or `intendedFor` does not
parse as a public key; in particular an action without `intendedFor`
always yields `InvalidActionCodeError`, never a network error. -/
theorem getAction_invalidActionCode_iff (pkParse : PkParse)
    (client : ClientGetAction) (code : String) :
    ((∃ r, getAction pkParse client code = .error (.invalidActionCode code r)) ↔
      strTrim code = "" ∨ client = .resolved none ∨
        ∃ a, client = .resolved (some a) ∧
          (optFalsy a.intendedFor = true ∨
            exceptIsOk (pkParse (a.intendedFor.getD "")) = false)) ∧
    (∀ a, client = .resolved (some a) → optFalsy a.intendedFor = true →
      ∃ r, getAction pkParse client code = .error (.invalidActionCode code r)) := by
  constructor
  · cases client with
    | rejected e =>
      by_cases hc : strTrim code = "" <;> simp [getAction, hc]
    | resolved oa =>
      cases oa with
      | none => by_cases hc : strTrim code = "" <;> simp [getAction, hc]
      | some a =>
        by_cases hc : strTrim code = ""
        · simp [getAction, hc]
        · by_cases hf : optFalsy a.intendedFor
          · simp [getAction, hc, hf]
          · cases hpk : pkParse (a.intendedFor.getD "") with
            | ok u => simp [getAction, hc, hf, hpk, exceptIsOk]
            | error m => simp [getAction, hc, hf, hpk, exceptIsOk]
  · intro a hcl hf
    subst hcl
    by_cases hc : strTrim code = ""
    · exact ⟨"Code cannot be empty", by simp [getAction, hc]⟩
    · exact ⟨"Action missing intended recipient", by simp [getAction, hc, hf]⟩

/-- Witness for C4: a client that resolves an action with no `intendedFor`
makes `getAction` fail with `InvalidActionCodeError`, and the failure
condition of the iff holds there. -/
theorem getAction_invalidActionCode_iff_witness :
    getAction (fun _ => .ok ()) (.resolved (some ⟨none⟩)) "abc123" =
      .error (.invalidActionCode "abc123" "Action missing intended recipient") := by
  have h := (getAction_invalidActionCode_iff (fun _ => .ok ())
    (.resolved (some ⟨none⟩)) "abc123").2 ⟨none⟩ rfl (by decide)
  exact (by decide : getAction (fun _ => .ok ()) (.resolved (some ⟨none⟩)) "abc123" =
    .error (.invalidActionCode "abc123" "Action missing intended recipient"))

/-- Inversion of a successful `getAction`: the client resolved exactly that
action, its `intendedFor` is present (not JS-falsy) and parses as a public
key. -/
theorem getAction_ok_inv {pkParse : PkParse} {client : ClientGetAction}
    {code : String} {a : Action} (h : getAction pkParse client code = .ok a) :
    client = .resolved (some a) ∧ optFalsy a.intendedFor = false ∧
      ∃ u, pkParse (a.intendedFor.getD "") = .ok u := by
  unfold getAction at h
  by_cases hc : (strTrim code == "") = true
  · rw [if_pos hc] at h; cases h
  · rw [if_neg hc] at h
    cases client with
    | rejected e => cases h
    | resolved oa =>
      cases oa with
      | none => cases h
      | some a0 =>
        dsimp only at h
        by_cases hf : optFalsy a0.intendedFor
        · rw [if_pos hf] at h; cases h
        · rw [if_neg hf] at h
          cases hpk : pkParse (a0.intendedFor.getD "") with
          | error m => rw [hpk] at h; cases h
          | ok u =>
            rw [hpk] at h
            cases h
            exact ⟨rfl, by simpa using hf, u, hpk⟩

/-- C6: when the action resolves and the submission returns status
`"completed"` with a payload, `createSession` persists exactly
`{signedTxBase64 := result, expiresAt := now + 24h, origin}` and returns
the `intendedFor` public key; when the submission status is not
`"completed"` or the payload is absent, it fails with an
`ActioConnectionError` and the store is unchanged (nothing persisted). -/
theorem createSession_spec (pkParse : PkParse) (clientAction : ClientGetAction)
    (clientSubmit : ClientSubmit) (now : Nat) (code origin : String)
    (store : Option StoredSession) (a : Action)
    (hget : getAction pkParse clientAction code = .ok a) :
    (∀ r, submitAction clientSubmit = .ok ⟨"completed", some r⟩ →
      createSession pkParse clientAction clientSubmit now code origin store =
        (.ok (⟨r, now + sessionDurationMs, origin⟩, a.intendedFor.getD ""),
         some ⟨r, now + sessionDurationMs, origin⟩)) ∧
    (∀ st ro, submitAction clientSubmit = .ok ⟨st, ro⟩ →
      st ≠ "completed" ∨ ro = none →
      createSession pkParse clientAction clientSubmit now code origin store =
        (.error ⟨"Failed to create session: Failed to create session"⟩, store)) := by
  obtain ⟨hcl, hf, u, hpk⟩ := getAction_ok_inv hget
  constructor
  · intro r hsub
    unfold createSession
    rw [hget]
    dsimp only
    rw [if_neg (by simp [hf]), hpk]
    dsimp only
    rw [hsub]
    dsimp only
    simp
  · intro st ro hsub hbad
    unfold createSession
    rw [hget]
    dsimp only
    rw [if_neg (by simp [hf]), hpk]
    dsimp only
    rw [hsub]
    dsimp only
    rw [if_pos (by simpa using hbad)]

/-- Witness for C6: a client completing with payload `"SIG"` persists the
session record and returns the `intendedFor` key `"PK1"`. -/
theorem createSession_spec_witness :
    createSession (fun _ => .ok ()) (.resolved (some ⟨some "PK1"⟩))
        (.resolved ⟨"completed", some "SIG", none⟩) 1000 "abc" "site.com" none =
      (.ok (⟨"SIG", 1000 + sessionDurationMs, "site.com"⟩, "PK1"),
       some ⟨"SIG", 1000 + sessionDurationMs, "site.com"⟩) :=
  (createSession_spec (fun _ => .ok ()) (.resolved (some ⟨some "PK1"⟩))
      (.resolved ⟨"completed", some "SIG", none⟩) 1000 "abc" "site.com" none
      ⟨some "PK1"⟩ (by decide)).1 "SIG" (by decide)

/-- C7: every failing `submitAction` distinguishes the two fatal
submission failures — a `TaskTimeoutError` rejection surfaces as an
`ActionProcessingError` in phase `TASK_TIMEOUT`, a `TaskNotFoundError`
rejection as phase `TASK_NOT_FOUND` (two distinct phases) — and every
other rejection is first passed through the network-error classifier and
wrapped in phase `SUBMISSION_FAILED`. -/
theorem submitAction_failure_classification (e : JsError) :
    (e.name = "TaskTimeoutError" →
      submitAction (.rejected e) =
        .error ⟨"Task did not complete in time", "TASK_TIMEOUT", .raw e⟩) ∧
    (e.name ≠ "TaskTimeoutError" → e.name = "TaskNotFoundError" →
      submitAction (.rejected e) =
        .error ⟨"Task not found", "TASK_NOT_FOUND", .raw e⟩) ∧
    (e.name ≠ "TaskTimeoutError" → e.name ≠ "TaskNotFoundError" →
      submitAction (.rejected e) =
        .error ⟨"Failed to submit action", "SUBMISSION_FAILED",
                .network (enhanceNetworkError e)⟩) ∧
    ("TASK_TIMEOUT" : String) ≠ "TASK_NOT_FOUND" := by
  refine ⟨?_, ?_, ?_, by decide⟩ <;> intros h1 <;> try intros h2
  · simp [submitAction, h1]
  · simp [submitAction, h1, h2]
  · simp [submitAction, h1, h2]

/-- Witness for C7: a rejection named `TaskTimeoutError` becomes the
`TASK_TIMEOUT` processing error. -/
theorem submitAction_failure_classification_witness :
    submitAction (.rejected ⟨"TaskTimeoutError", "late"⟩) =
      .error ⟨"Task did not complete in time", "TASK_TIMEOUT",
              .raw ⟨"TaskTimeoutError", "late"⟩⟩ :=
  (submitAction_failure_classification ⟨"TaskTimeoutError", "late"⟩).1 rfl

/-- An external-call environment whose transaction deserialization fails
(both `Transaction.from` and `VersionedTransaction.deserialize` throw). -/
def deserFailEnv : SdkEnv :=
  ⟨false, none, .ok true, fun _ => .ok ()⟩

/-- A stored session that is unexpired at time 500 and bound to
`site.com`. -/
def storedSiteSession : StoredSession := ⟨"sig", 1000, "site.com"⟩

/-- Counterexample to C1: when the stored payload fails to deserialize,
`validateSession` returns `isValid = false` with error
`"Invalid transaction format"` but does NOT delete the stored session, and
an immediately subsequent call repeats the same error instead of returning
`"No session found"`. -/
theorem validateSession_not_always_cleared :
    validateSession deserFailEnv 500 "site.com" (some storedSiteSession) =
      (⟨false, none, some "Invalid transaction format"⟩, some storedSiteSession) ∧
    (validateSession deserFailEnv 500 "site.com"
        (validateSession deserFailEnv 500 "site.com" (some storedSiteSession)).2).1 =
      ⟨false, none, some "Invalid transaction format"⟩ := by
  constructor <;> rfl

/-- C1 (amended): a failing `validateSession` deletes the stored session —
so the next call returns `"No session found"` — on every failure path
except two: a payload that does not deserialize
(`"Invalid transaction format"`) and a missing memo (`"No memo found"`)
leave the stored session in place. -/
theorem validateSession_failure_clears_amended (env : SdkEnv) (now : Nat)
    (origin : String) (store : Option StoredSession)
    (h : (validateSession env now origin store).1.isValid = false) :
    ((validateSession env now origin store).2 = none ∧
      (validateSession env now origin
          ((validateSession env now origin store).2)).1.error =
        some "No session found") ∨
    (((validateSession env now origin store).1.error =
        some "Invalid transaction format" ∨
      (validateSession env now origin store).1.error = some "No memo found") ∧
      (validateSession env now origin store).2 = store) := by
  cases store with
  | none => exact .inl ⟨rfl, rfl⟩
  | some session =>
    unfold validateSession at h ⊢
    dsimp only at h ⊢
    by_cases h1 : session.expiresAt < now
    · rw [if_pos h1]
      exact .inl ⟨rfl, rfl⟩
    · rw [if_neg h1] at h ⊢
      by_cases h2 : session.origin ≠ origin
      · rw [if_pos h2]
        exact .inl ⟨rfl, rfl⟩
      · rw [if_neg h2] at h ⊢
        by_cases h3 : env.deserializeOk
        · rw [if_neg (by simp [h3])] at h ⊢
          cases hm : env.memo with
          | none =>
            exact .inr ⟨.inr rfl, rfl⟩
          | some int =>
            rw [hm] at h
            dsimp only at h ⊢
            cases hv : env.sdkValidate with
            | error msg =>
              exact .inl ⟨rfl, rfl⟩
            | ok b =>
              cases b with
              | false =>
                exact .inl ⟨rfl, rfl⟩
              | true =>
                rw [hv] at h
                dsimp only at h ⊢
                cases hp : env.pkParse int with
                | error msg =>
                  exact .inl ⟨rfl, rfl⟩
                | ok u =>
                  rw [hp] at h
                  simp at h
        · rw [if_pos (by simp [h3])]
          exact .inr ⟨.inl rfl, rfl⟩

/-- Witness for C1 (amended) at an expired session: the failing call
clears the store and the next call reports `"No session found"`. -/
theorem validateSession_failure_clears_amended_witness :
    (validateSession deserFailEnv 2000 "site.com" (some storedSiteSession)).2 = none ∧
      (validateSession deserFailEnv 2000 "site.com"
          ((validateSession deserFailEnv 2000 "site.com"
              (some storedSiteSession)).2)).1.error = some "No session found" :=
  (validateSession_failure_clears_amended deserFailEnv 2000 "site.com"
      (some storedSiteSession) (by decide)).resolve_right (by decide)

/-- Settling a different promise id leaves a promise's settlement
unchanged. -/
theorem settlementOf_settlePromise_ne (ps : List (Nat × Settlement))
    (q p : Nat) (s : Settlement) (h : q ≠ p) :
    settlementOf (settlePromise ps q s) p = settlementOf ps p := by
  induction ps with
  | nil => rfl
  | cons hd tl ih =>
    obtain ⟨q0, st0⟩ := hd
    by_cases h1 : q0 = q <;> by_cases h2 : q0 = p <;>
      simp_all [settlePromise, settlementOf]

/-- Settling an existing promise records the new settlement. -/
theorem settlementOf_settlePromise_eq (ps : List (Nat × Settlement))
    (p : Nat) (s : Settlement) (h : settlementOf ps p ≠ none) :
    settlementOf (settlePromise ps p s) p = some s := by
  induction ps with
  | nil => exact absurd rfl h
  | cons hd tl ih =>
    obtain ⟨q0, st0⟩ := hd
    by_cases h1 : q0 = p
    · simp [settlePromise, settlementOf, h1]
    · simp only [settlementOf, if_neg h1] at h
      simp [settlePromise, settlementOf, h1, ih h]

/-- Appending a fresh promise entry does not affect other ids. -/
theorem settlementOf_append_ne (ps : List (Nat × Settlement))
    (p q : Nat) (x : Settlement) (h : q ≠ p) :
    settlementOf (ps ++ [(q, x)]) p = settlementOf ps p := by
  induction ps with
  | nil => simp [settlementOf, h]
  | cons hd tl ih =>
    obtain ⟨q0, st0⟩ := hd
    by_cases h1 : q0 = p <;> simp [settlementOf, h1, ih]

/-- One modal event never touches the settlement of a promise that is not
the current one and is older than every id yet to be created; it also
keeps that promise non-current and older than `nextId`. -/
theorem modalStep_preserves_noncurrent (s : ModalServiceState) (p : Nat)
    (e : ModalEvent) (hcur : s.currentPromise ≠ some p) (hlt : p < s.nextId) :
    settlementOf (modalStep s e).promises p = settlementOf s.promises p ∧
      (modalStep s e).currentPromise ≠ some p ∧ p < (modalStep s e).nextId := by
  cases e with
  | showCall =>
    have goals :
        settlementOf (s.promises ++ [(s.nextId, Settlement.pending)]) p =
            settlementOf s.promises p ∧
          (some s.nextId ≠ some p) ∧ p < s.nextId + 1 := by
      refine ⟨settlementOf_append_ne _ _ _ _ (by omega), ?_, by omega⟩
      simp only [ne_eq, Option.some.injEq]
      omega
    unfold modalStep showModal
    by_cases h1 : s.currentPromise = none ∧ s.screen ≠ Screen.error
    · rw [if_pos h1]
      exact goals
    · rw [if_neg h1]
      by_cases h2 : s.currentPromise = none ∧ s.screen = Screen.error
      · rw [if_pos h2]
        exact goals
      · rw [if_neg h2]
        exact goals
  | codeSubmit code =>
    unfold modalStep
    cases hq : s.currentPromise with
    | none => exact ⟨rfl, hcur, hlt⟩
    | some q =>
      have hqp : q ≠ p := fun hh => hcur (by rw [hq, hh])
      dsimp only
      by_cases hc : code ≠ ""
      · rw [if_pos hc]
        exact ⟨settlementOf_settlePromise_ne _ _ _ _ hqp, by simp, hlt⟩
      · rw [if_neg hc]
        exact ⟨rfl, hcur, hlt⟩
  | retry => exact ⟨rfl, hcur, hlt⟩
  | close reason =>
    unfold modalStep
    cases hq : s.currentPromise with
    | none => exact ⟨rfl, hcur, hlt⟩
    | some q =>
      have hqp : q ≠ p := fun hh => hcur (by rw [hq, hh])
      dsimp only
      exact ⟨settlementOf_settlePromise_ne _ _ _ _ hqp, by simp, hlt⟩
  | showLoading => exact ⟨rfl, hcur, hlt⟩
  | showError => exact ⟨rfl, hcur, hlt⟩
  | showSuccess => exact ⟨rfl, hcur, hlt⟩

/-- No sequence of modal events ever settles a promise that is not the
current one and is older than `nextId`. -/
theorem modalRun_preserves_noncurrent (evs : List ModalEvent) :
    ∀ (s : ModalServiceState) (p : Nat), s.currentPromise ≠ some p →
      p < s.nextId →
      settlementOf (modalRun s evs).promises p = settlementOf s.promises p := by
  induction evs with
  | nil => intro s p _ _; rfl
  | cons e es ih =>
    intro s p hcur hlt
    obtain ⟨h1, h2, h3⟩ := modalStep_preserves_noncurrent s p e hcur hlt
    calc settlementOf (modalRun (modalStep s e) es).promises p
        = settlementOf (modalStep s e).promises p := ih (modalStep s e) p h2 h3
      _ = settlementOf s.promises p := h1

/-- Counterexample to C2: starting from the freshly initialized modal, a
first `show()` installs waiter 0; a second `show()` while that promise is
still pending installs a DISTINCT waiter 1 (it does not reuse the pending
wait), and after the user submits the code `"abc123"` only waiter 1 is
resolved while waiter 0 is still pending — an earlier waiter is left
unsettled. -/
theorem show_creates_second_waiter :
    (showModal (showModal initModalState).1).2 ≠ (showModal initModalState).2 ∧
      (showModal (showModal initModalState).1).1.currentPromise =
        some (showModal (showModal initModalState).1).2 ∧
      settlementOf
          (modalStep (showModal (showModal initModalState).1).1
            (.codeSubmit "abc123")).promises
          (showModal initModalState).2 = some .pending ∧
      settlementOf
          (modalStep (showModal (showModal initModalState).1).1
            (.codeSubmit "abc123")).promises
          (showModal (showModal initModalState).1).2 =
        some (.resolved "abc123") := by
  refine ⟨by decide, by decide, by decide, by decide⟩

/-- C2 (amended): calling `show()` while a previous `show()`'s promise is
pending does not settle or reuse the pending wait — it installs a fresh,
distinct waiter in the single `currentPromise` slot, and the replaced
waiter is never resolved or rejected by any subsequent sequence of modal
events: it stays pending permanently. -/
theorem show_second_waiter_amended (s : ModalServiceState) (p1 : Nat)
    (evs : List ModalEvent) (hcur : s.currentPromise = some p1)
    (hlt : p1 < s.nextId)
    (hpend : settlementOf s.promises p1 = some .pending) :
    (showModal s).2 ≠ p1 ∧
      (showModal s).1.currentPromise = some (showModal s).2 ∧
      settlementOf (modalRun (showModal s).1 evs).promises p1 =
        some .pending := by
  have hs1 : showModal s =
      ({ s with
          currentPromise := some s.nextId,
          promises := s.promises ++ [(s.nextId, Settlement.pending)],
          nextId := s.nextId + 1 }, s.nextId) := by
    unfold showModal
    rw [if_neg (by simp [hcur]), if_neg (by simp [hcur])]
  rw [hs1]
  refine ⟨by omega, rfl, ?_⟩
  rw [modalRun_preserves_noncurrent evs _ p1
    (by simp only [ne_eq, Option.some.injEq]; omega) (by simp; omega)]
  rw [settlementOf_append_ne _ _ _ _ (by omega)]
  exact hpend

/-- Witness for C2 (amended): after one `show()` on the initial modal,
waiter 0 is pending; a second `show()` returns the distinct waiter 1, and
after the event sequence `[codeSubmit "abc123"]` waiter 0 is still
pending. -/
theorem show_second_waiter_amended_witness :
    (showModal (showModal initModalState).1).2 ≠ 0 ∧
      (showModal (showModal initModalState).1).1.currentPromise =
        some (showModal (showModal initModalState).1).2 ∧
      settlementOf
          (modalRun (showModal (showModal initModalState).1).1
            [.codeSubmit "abc123"]).promises 0 = some .pending :=
  show_second_waiter_amended (showModal initModalState).1 0
    [.codeSubmit "abc123"] (by decide) (by decide) (by decide)

/-- C8: when a code-wait is pending on the error screen, the retry event
switches the screen back to input without resolving or rejecting the
pending wait (the same promise stays current and pending, the settlement
ledger untouched), and a subsequent code-submit with a non-empty code `c`
resolves exactly that wait with `c` and empties the waiter slot. -/
theorem retry_keeps_wait_then_submit_resolves (s : ModalServiceState)
    (p : Nat) (c : String) (_hscreen : s.screen = Screen.error)
    (hcur : s.currentPromise = some p)
    (hpend : settlementOf s.promises p = some .pending) (hc : c ≠ "") :
    (modalStep s .retry).screen = Screen.input ∧
      (modalStep s .retry).currentPromise = some p ∧
      (modalStep s .retry).promises = s.promises ∧
      settlementOf (modalStep (modalStep s .retry) (.codeSubmit c)).promises p =
        some (.resolved c) ∧
      (modalStep (modalStep s .retry) (.codeSubmit c)).currentPromise = none := by
  refine ⟨rfl, hcur, rfl, ?_, ?_⟩ <;>
    · unfold modalStep
      dsimp only
      rw [hcur]
      dsimp only
      rw [if_pos hc]
      try exact rfl
      try exact settlementOf_settlePromise_eq s.promises p _ (by rw [hpend]; simp)

/-- Witness for C8 at a concrete state: show, then an error screen, then
retry and submit `"xyz"`. -/
theorem retry_keeps_wait_then_submit_resolves_witness :
    (modalStep (modalStep (showModal initModalState).1 .showError) .retry).screen =
        Screen.input ∧
      (modalStep (modalStep (showModal initModalState).1 .showError)
          .retry).currentPromise = some 0 ∧
      (modalStep (modalStep (showModal initModalState).1 .showError)
          .retry).promises =
        (modalStep (showModal initModalState).1 .showError).promises ∧
      settlementOf
          (modalStep
            (modalStep (modalStep (showModal initModalState).1 .showError) .retry)
            (.codeSubmit "xyz")).promises 0 = some (.resolved "xyz") ∧
      (modalStep
          (modalStep (modalStep (showModal initModalState).1 .showError) .retry)
          (.codeSubmit "xyz")).currentPromise = none :=
  retry_keeps_wait_then_submit_resolves
    (modalStep (showModal initModalState).1 .showError) 0 "xyz"
    (by decide) (by decide) (by decide) (by decide)

/-- A concrete `signTransaction` environment in which everything succeeds
except the session re-validation: no session is stored, so the cross-check
fails. -/
def signEnvSessionInvalid : SignEnv :=
  ⟨.ok "abc123", .resolved (some ⟨some "PK1"⟩), fun _ => .ok (),
   ⟨true, some "PK1", .ok true, fun _ => .ok ()⟩, 0, "site.com", none,
   .resolved ⟨"completed", some "SIG", none⟩, true⟩

/-- Counterexample to C3: when the session cross-check fails,
`signTransaction` does abort before submitting, but the error it throws is
a plain `Error` (`new Error("Session is not valid. ...")`), which carries
no `ActioError` code — it is not a `ConnectionError`
(`code = "CONNECTION_ERROR"`). -/
theorem signTransaction_crosscheck_plain_error :
    signTransactionRun signEnvSessionInvalid =
        ⟨.error (.jsError sessionInvalidMsg), false⟩ ∧
      AdapterError.errorCode (.jsError sessionInvalidMsg) ≠
        some "CONNECTION_ERROR" := by
  refine ⟨by decide, by decide⟩

/-- C3 (amended): after resolving the action for the entered code,
`signTransaction` re-validates the session and asserts its bound key
equals the action's `intendedFor`; every run in which this cross-check
fails (session invalid, no bound key, or key mismatch) aborts fatally with
a plain `Error` — `"Session is not valid. Please reconnect your wallet."`
or the mismatch message — not a typed `ConnectionError`, and the signing
submission is never sent. -/
theorem signTransaction_crosscheck_amended (env : SignEnv) (code : String)
    (a : Action) (hm : env.modalCode = .ok code)
    (hget : getAction env.pkParse env.clientAction code = .ok a)
    (hcross :
      (validateSession env.valEnv env.now env.origin env.store).1.isValid = false ∨
      (validateSession env.valEnv env.now env.origin env.store).1.publicKey = none ∨
      (validateSession env.valEnv env.now env.origin env.store).1.publicKey ≠
        a.intendedFor) :
    (signTransactionRun env = ⟨.error (.jsError sessionInvalidMsg), false⟩ ∨
      signTransactionRun env = ⟨.error (.jsError sessionMismatchMsg), false⟩) ∧
      (signTransactionRun env).submitted = false := by
  obtain ⟨-, hf, u, hpk⟩ := getAction_ok_inv hget
  unfold signTransactionRun
  rw [hm]
  dsimp only
  rw [hget]
  dsimp only
  rw [if_neg (by simp [hf]), hpk]
  dsimp only
  by_cases hv :
      (validateSession env.valEnv env.now env.origin env.store).1.isValid = false ∨
      (validateSession env.valEnv env.now env.origin env.store).1.publicKey = none
  · rw [if_pos hv]
    exact ⟨.inl rfl, rfl⟩
  · rw [if_neg hv]
    have hne : (validateSession env.valEnv env.now env.origin env.store).1.publicKey ≠
        a.intendedFor := by
      rcases hcross with h | h | h
      · exact absurd (Or.inl h) hv
      · exact absurd (Or.inr h) hv
      · exact h
    rw [if_pos hne]
    exact ⟨.inr rfl, rfl⟩

/-- Witness for C3 (amended) at the invalid-session environment: the run
errors with the plain session-invalid message and never submits. -/
theorem signTransaction_crosscheck_amended_witness :
    (signTransactionRun signEnvSessionInvalid =
        ⟨.error (.jsError sessionInvalidMsg), false⟩ ∨
      signTransactionRun signEnvSessionInvalid =
        ⟨.error (.jsError sessionMismatchMsg), false⟩) ∧
      (signTransactionRun signEnvSessionInvalid).submitted = false :=
  signTransaction_crosscheck_amended signEnvSessionInvalid "abc123" ⟨some "PK1"⟩
    (by decide) (by decide) (.inl (by decide))

end ActioAdapter
